import Mathlib

/-!
Verification development for the Medical-Booking-Service repository.

The definitions below are shallow embeddings of the booking core:

* the device-booking service (bronivik_jr): `Booking`, `Item`, the
  bookings store functions `createExternalBooking`, `cancelExternalBooking`
  (file internal/database, part handling external bookings), and the range
  overlap predicate `Booking.overlapsWith`
  (bronivik_jr/internal/models/booking.go);
* the room-booking service (bronivik_crm): `HourlyBooking` with its
  half-open overlap predicate (bronivik_crm/internal/model/hourly_booking.go),
  the slot generator (bronivik_crm/internal/slots/generator.go), the
  schedule override store (bronivik_crm/internal/db/schedule.go) and the
  status-transition service methods (ApproveBooking, RejectBooking,
  RequestRevision).

Wall-clock times and dates are modelled as integers (minutes since
midnight for times of day, day numbers for calendar dates), so the SQL
normalisation date(x) is the identity on the model.
-/

/-! ## Status constants (mirroring the BookingStatus constants of the sources) -/

def StatusPending : String := "pending"

def StatusApproved : String := "approved"

def StatusConfirmed : String := "confirmed"

def StatusRejected : String := "rejected"

def StatusNeedsRevision : String := "needs_revision"

def StatusCanceled : String := "canceled"

def StatusCompleted : String := "completed"

/-! ## bronivik_jr data model (internal/models/booking.go, items table) -/

/-- Device-booking record; mirrors models.Booking of bronivik_jr.  `date` is
the start day, `endTime` the optional end day (none means single day),
`version` the optimistic-concurrency counter. -/
structure Booking where
  id : Nat
  userId : Int
  userName : String
  userNickname : String
  phone : String
  itemId : Nat
  itemName : String
  date : Int
  endTime : Option Int
  status : String
  comment : String
  reminderSent : Bool
  externalBookingId : Option String
  version : Nat
  deriving Repr, DecidableEq

/-- GetEffectiveEndTime: the end day, or the start day when no end is set. -/
def Booking.getEffectiveEndTime (b : Booking) : Int :=
  match b.endTime with
  | some e => e
  | none => b.date

/-- OverlapsWith of bronivik_jr models.Booking: inclusive-boundary check
written in the source as two negated Before comparisons. -/
def Booking.overlapsWith (b other : Booking) : Bool :=
  !(decide (b.getEffectiveEndTime < other.date)) &&
    !(decide (other.getEffectiveEndTime < b.date))

/-- Item row of the items table (fields used by the booking store). -/
structure Item where
  id : Nat
  name : String
  totalQuantity : Int
  isActive : Bool
  permanentReserved : Bool
  deriving Repr, DecidableEq

/-! ## bronivik_crm data model (internal/model/hourly_booking.go) -/

/-- Room-booking record; mirrors model.HourlyBooking of bronivik_crm.
Start and end are timestamps in minutes.  Note the struct has no version
field. -/
structure HourlyBooking where
  id : Nat
  userId : Nat
  cabinetId : Nat
  itemName : String
  clientName : String
  clientPhone : String
  startTime : Int
  endTime : Int
  status : String
  comment : String
  managerComment : String
  reminderSent : Bool
  externalDeviceBookingId : Nat
  deriving Repr, DecidableEq

/-- OverlapsWith of model.HourlyBooking: half-open interval check,
startA < endB and startB < endA. -/
def HourlyBooking.overlapsWith (b other : HourlyBooking) : Bool :=
  decide (b.startTime < other.endTime) && decide (other.startTime < b.endTime)

/-! ## Slot generator (bronivik_crm/internal/slots/generator.go)

Times of day are minutes since midnight (parseTimeOnDate maps the
HH:MM strings of ScheduleInfo onto the target date; the date component
cancels out of every comparison, so it is omitted).  The booking-checker
callback and the wall clock are passed as parameters.  The generation
loop is written with a fuel argument; `generateSlots` supplies fuel
`endTime + 1`, which bounds the iteration count since the step is at
least one minute. -/

/-- Slot produced by the generator. -/
structure Slot where
  startTime : Nat
  endTime : Nat
  available : Bool
  deriving Repr, DecidableEq

/-- ScheduleInfo of the generator: lunch fields are optional (empty
strings in the source become none), slotDuration keeps its signed type
because the source tests it against zero. -/
structure ScheduleInfo where
  startTime : Nat
  endTime : Nat
  lunchStart : Option Nat
  lunchEnd : Option Nat
  slotDuration : Int
  isClosed : Bool
  deriving Repr, DecidableEq

/-- isOverlapping helper of the generator (half-open intervals). -/
def isOverlapping (start1 end1 start2 end2 : Nat) : Bool :=
  decide (start1 < end2) && decide (start2 < end1)

/-- The generation loop: while cursor + duration is at most the end of
day, emit the slot unless it overlaps the lunch break, marking it
available when it is neither booked nor in the past. -/
def genSlotsLoop (checker : Nat → Nat → Bool) (now : Nat) (hasLunch : Bool)
    (lunchStart lunchEnd d endT : Nat) : Nat → Nat → List Slot
  | 0, _ => []
  | fuel + 1, cursor =>
    if cursor + d ≤ endT then
      let slotStart := cursor
      let slotEnd := cursor + d
      let rest := genSlotsLoop checker now hasLunch lunchStart lunchEnd d endT fuel (cursor + d)
      if hasLunch && isOverlapping slotStart slotEnd lunchStart lunchEnd then
        rest
      else
        let booked := checker slotStart slotEnd
        let isPast := decide (slotStart < now)
        { startTime := slotStart, endTime := slotEnd, available := !booked && !isPast } :: rest
    else []

/-- GenerateSlots: closed schedules yield nothing; a non-positive slot
duration falls back to 30 minutes; lunch is active only when both lunch
fields are present. -/
def generateSlots (checker : Nat → Nat → Bool) (now : Nat) (s : ScheduleInfo) : List Slot :=
  if s.isClosed then []
  else
    let d : Nat := if s.slotDuration ≤ 0 then 30 else s.slotDuration.toNat
    let hasLunch := s.lunchStart.isSome && s.lunchEnd.isSome
    genSlotsLoop checker now hasLunch (s.lunchStart.getD 0) (s.lunchEnd.getD 0)
      d s.endTime (s.endTime + 1) s.startTime

/-! ## bronivik_jr booking store (database layer, external-booking functions)

The bookings and items tables are lists of rows; `nextId` models the
AUTOINCREMENT id that LastInsertId reports.  Each store function returns
its result together with the post-transaction state; an error leaves the
state unchanged (the transaction rolls back, or the UPDATE affected no
row). -/

/-- Database state of the device-booking service. -/
structure JrDB where
  nextId : Nat
  bookings : List Booking
  items : List Item
  deriving Repr, DecidableEq

/-- The lookup SELECT id FROM bookings WHERE external_booking_id = ?. -/
def findByExternalId (bs : List Booking) (extId : String) : Option Booking :=
  bs.find? (fun b => b.externalBookingId == some extId)

/-- The availability count: bookings of the item on the calendar date with
status approved. -/
def countApproved (bs : List Booking) (itemId : Nat) (date : Int) : Nat :=
  (bs.filter (fun b =>
    b.itemId == itemId && b.date == date && b.status == StatusApproved)).length

/-- The quantity lookup SELECT total_quantity FROM items WHERE id = ?. -/
def findItem (items : List Item) (itemId : Nat) : Option Item :=
  items.find? (fun i => i.id == itemId)

/-- Errors of CreateExternalBooking: ErrNotAvailable, and the scan error
when the item id is unknown. -/
inductive JrCreateError where
  | notAvailable
  | itemNotFound
  deriving Repr, DecidableEq

/-- The row INSERTed by CreateExternalBooking: no telegram user, status
approved, version 1. -/
def mkExternalBooking (newId itemId : Nat) (itemName : String) (date : Int)
    (extId clientName clientPhone : String) : Booking :=
  { id := newId, userId := 0, userName := clientName, userNickname := "",
    phone := clientPhone, itemId := itemId, itemName := itemName, date := date,
    endTime := none, status := StatusApproved, comment := "", reminderSent := false,
    externalBookingId := some extId, version := 1 }

/-- CreateExternalBooking: inside one transaction, return the existing id
when the external id is already used; otherwise count approved occupancy,
read the item quantity, refuse with ErrNotAvailable at capacity, else
insert the new row. -/
def createExternalBooking (db : JrDB) (itemId : Nat) (itemName : String) (date : Int)
    (extId clientName clientPhone : String) : Except JrCreateError Nat × JrDB :=
  match findByExternalId db.bookings extId with
  | some existing => (Except.ok existing.id, db)
  | none =>
    match findItem db.items itemId with
    | none => (Except.error JrCreateError.itemNotFound, db)
    | some item =>
      if item.totalQuantity ≤ (countApproved db.bookings itemId date : Int) then
        (Except.error JrCreateError.notAvailable, db)
      else
        (Except.ok db.nextId,
          { db with
              nextId := db.nextId + 1,
              bookings := db.bookings ++
                [mkExternalBooking db.nextId itemId itemName date extId clientName clientPhone] })

/-- Error of CancelExternalBooking when the UPDATE affected zero rows. -/
inductive JrCancelError where
  | notFoundOrAlreadyCanceled
  deriving Repr, DecidableEq

/-- The WHERE clause of CancelExternalBooking: matching external id and
status not already canceled. -/
def cancelTargets (b : Booking) (extId : String) : Bool :=
  b.externalBookingId == some extId && !(b.status == StatusCanceled)

/-- CancelExternalBooking: set status canceled on every row whose external
id matches and whose status is not yet canceled; error when no row was
affected.  The statement touches status and updated_at only. -/
def cancelExternalBooking (db : JrDB) (extId : String) : Except JrCancelError JrDB :=
  if (db.bookings.filter (fun b => cancelTargets b extId)).length == 0 then
    Except.error JrCancelError.notFoundOrAlreadyCanceled
  else Except.ok { db with bookings := db.bookings.map (fun b =>
    if cancelTargets b extId then { b with status := StatusCanceled } else b) }

/-- Concurrency-conflict error of the version-conditioned update. -/
inductive UpdateError where
  | concurrencyConflict
  deriving Repr, DecidableEq

/-- Modelled from the spec: the repository implementation behind
Repository.UpdateBookingStatusWithVersion (declared in
internal/bot/interfaces.go) is not among the provided sources.  Section
4.4 of the spec prescribes an update conditioned on WHERE id = ? AND
version = ? that stores the target status, increments the version by
exactly one, and reports a concurrency conflict when zero rows are
affected. -/
def updateBookingStatusWithVersion (db : JrDB) (id expectedVersion : Nat) (status : String) :
    Except UpdateError JrDB :=
  if (db.bookings.filter (fun b => b.id == id && b.version == expectedVersion)).length == 0 then
    Except.error UpdateError.concurrencyConflict
  else Except.ok { db with bookings := db.bookings.map (fun b =>
    if b.id == id && b.version == expectedVersion then
      { b with status := status, version := b.version + 1 }
    else b) }

/-! ## bronivik_crm status-transition service (part_011) -/

/-- Errors of the CRM service status transitions. -/
inductive CrmError where
  | getBookingFailed
  | invalidStatus (current : String)
  | alreadyFinalized
  deriving Repr, DecidableEq

/-- GetBooking by id over the hourly-bookings list. -/
def getBooking (bs : List HourlyBooking) (id : Nat) : Option HourlyBooking :=
  bs.find? (fun b => b.id == id)

/-- Modelled from the spec: the repository implementation behind
BookingRepository.UpdateBookingStatus (interface only, part_011) is not
among the provided sources; it stores the target status and the comment
on the addressed row. -/
def updateBookingStatus (bs : List HourlyBooking) (id : Nat) (status comment : String) :
    List HourlyBooking :=
  bs.map (fun b =>
    if b.id == id then { b with status := status, managerComment := comment } else b)

/-- Service.ApproveBooking: read the booking; refuse unless its status is
pending; otherwise store status approved. -/
def approveBooking (bs : List HourlyBooking) (bookingId : Nat) (managerComment : String) :
    Except CrmError (List HourlyBooking) :=
  match getBooking bs bookingId with
  | none => Except.error CrmError.getBookingFailed
  | some booking =>
    if !(booking.status == StatusPending) then
      Except.error (CrmError.invalidStatus booking.status)
    else Except.ok (updateBookingStatus bs bookingId StatusApproved managerComment)

/-- Service.RejectBooking: read the booking; refuse only when its status
is already rejected or canceled; otherwise store status rejected (the
best-effort device cancellation has no effect on the local state). -/
def rejectBooking (bs : List HourlyBooking) (bookingId : Nat) (reason : String) :
    Except CrmError (List HourlyBooking) :=
  match getBooking bs bookingId with
  | none => Except.error CrmError.getBookingFailed
  | some booking =>
    if booking.status == StatusRejected || booking.status == StatusCanceled then
      Except.error CrmError.alreadyFinalized
    else Except.ok (updateBookingStatus bs bookingId StatusRejected reason)

/-- Service.RequestRevision: read the booking; refuse unless its status is
pending; otherwise store status needs_revision. -/
def requestRevision (bs : List HourlyBooking) (bookingId : Nat) (comment : String) :
    Except CrmError (List HourlyBooking) :=
  match getBooking bs bookingId with
  | none => Except.error CrmError.getBookingFailed
  | some booking =>
    if !(booking.status == StatusPending) then
      Except.error (CrmError.invalidStatus booking.status)
    else Except.ok (updateBookingStatus bs bookingId StatusNeedsRevision comment)

/-! ## Schedule overrides and the holiday loop
(bronivik_crm/internal/db/schedule.go and SyncCabinetsFromConfig) -/

/-- Row of the cabinet_schedule_overrides table; the payload time fields
are the HH:MM strings of the model, empty when absent. -/
structure OverrideRow where
  cabinetId : Nat
  date : Int
  isClosed : Bool
  startTime : String
  endTime : String
  lunchStart : String
  lunchEnd : String
  reason : String
  deriving Repr, DecidableEq

/-- The (cabinet, date) key of the overrides table. -/
def overrideKeyMatches (r : OverrideRow) (cabinetId : Nat) (date : Int) : Bool :=
  r.cabinetId == cabinetId && r.date == date

/-- CreateScheduleOverride: INSERT with ON CONFLICT(cabinet_id, date)
DO UPDATE replacing every payload column with the incoming values. -/
def createScheduleOverride (tbl : List OverrideRow) (o : OverrideRow) : List OverrideRow :=
  if tbl.any (fun r => overrideKeyMatches r o.cabinetId o.date) then
    tbl.map (fun r => if overrideKeyMatches r o.cabinetId o.date then o else r)
  else tbl ++ [o]

/-- SetDayOff: a closed override for the date, written through
CreateScheduleOverride. -/
def setDayOff (tbl : List OverrideRow) (cabinetId : Nat) (date : Int) (reason : String) :
    List OverrideRow :=
  createScheduleOverride tbl
    { cabinetId := cabinetId, date := date, isClosed := true,
      startTime := "", endTime := "", lunchStart := "", lunchEnd := "", reason := reason }

/-- The holiday loop at the end of SyncCabinetsFromConfig: for every
configured holiday and every cabinet seen in the config, SetDayOff is
invoked (errors are ignored). -/
def applyHolidays (tbl : List OverrideRow) (cabinets : List Nat)
    (holidays : List (Int × String)) : List OverrideRow :=
  holidays.foldl
    (fun acc h => cabinets.foldl (fun acc2 cid => setDayOff acc2 cid h.1 h.2) acc) tbl

/-! ## Booking creation by the CRM bot (Bot.finalizeBooking, part_005) -/

/-- The hourly-booking record built by Bot.finalizeBooking: status is
pending, or approved when the booking is entered manually by a
manager. -/
def finalizeBookingRecord (isManual : Bool) (userId cabinetId : Nat)
    (itemName clientName clientPhone : String) (startTime endTime : Int) : HourlyBooking :=
  { id := 0, userId := userId, cabinetId := cabinetId, itemName := itemName,
    clientName := clientName, clientPhone := clientPhone,
    startTime := startTime, endTime := endTime,
    status := if isManual then StatusApproved else StatusPending,
    comment := "", managerComment := "", reminderSent := false,
    externalDeviceBookingId := 0 }

/-! ## Concrete fixtures used by witnesses and counterexamples -/

/-- A sample external booking id. -/
def extA : String := "crm-41"

/-- An item with one unit in stock. -/
def itemOne : Item :=
  { id := 1, name := "Laser", totalQuantity := 1, isActive := true, permanentReserved := false }

/-- An item with zero units in stock. -/
def itemZero : Item :=
  { id := 2, name := "Cryo", totalQuantity := 0, isActive := true, permanentReserved := false }

/-- Device-service database with two items and no bookings. -/
def jrDB0 : JrDB := { nextId := 10, bookings := [], items := [itemOne, itemZero] }

/-- A device booking in status approved carrying an external id. -/
def approvedJrBooking : Booking :=
  { id := 3, userId := 0, userName := "Client", userNickname := "", phone := "1",
    itemId := 1, itemName := "Laser", date := 100, endTime := none,
    status := StatusApproved, comment := "", reminderSent := false,
    externalBookingId := some extA, version := 1 }

/-- A device booking in the terminal status completed carrying an
external id. -/
def completedJrBooking : Booking :=
  { approvedJrBooking with id := 4, status := StatusCompleted }

/-- An hourly booking in the terminal status completed. -/
def completedCrmBooking : HourlyBooking :=
  { id := 7, userId := 1, cabinetId := 1, itemName := "Laser", clientName := "C",
    clientPhone := "1", startTime := 600, endTime := 660, status := StatusCompleted,
    comment := "", managerComment := "", reminderSent := false,
    externalDeviceBookingId := 0 }

/-- A pre-existing special-hours override for cabinet 1 on day 100. -/
def specialHoursOverride : OverrideRow :=
  { cabinetId := 1, date := 100, isClosed := false, startTime := "09:00",
    endTime := "15:00", lunchStart := "", lunchEnd := "", reason := "short day" }

/-- A sample client name. -/
def clientC : String := "Anna Ivanova"

/-- A sample client phone. -/
def phoneP : String := "+70000000000"

/-- A sample manager comment. -/
def commentX : String := "ok"

/-- A sample rejection reason. -/
def reasonX : String := "why"

/-- A sample holiday label. -/
def holidayNY : String := "New Year"

/-- Device-service database holding one approved external booking. -/
def jrDBApproved : JrDB := { nextId := 5, bookings := [approvedJrBooking], items := [itemOne] }

/-- Device-service database holding one completed external booking. -/
def jrDBCompleted : JrDB := { nextId := 5, bookings := [completedJrBooking], items := [itemOne] }

/-- The database jrDB0 after a successful external creation for item 1. -/
def jrDB1 : JrDB :=
  { nextId := 11,
    bookings := [mkExternalBooking 10 1 itemOne.name 100 extA clientC phoneP],
    items := [itemOne, itemZero] }

/-- The database jrDBApproved after cancelling by external id. -/
def jrDBCanceled : JrDB :=
  { jrDBApproved with bookings := [{ approvedJrBooking with status := StatusCanceled }] }

/-- The closed override row written for the sample holiday. -/
def closedNYRow : OverrideRow :=
  { cabinetId := 1, date := 100, isClosed := true, startTime := "", endTime := "",
    lunchStart := "", lunchEnd := "", reason := holidayNY }

/-- The 09:00 to 18:00 schedule with a 13:00 to 14:00 lunch break and
30-minute slots, in minutes since midnight. -/
def demoSchedule : ScheduleInfo :=
  { startTime := 540, endTime := 1080, lunchStart := some 780, lunchEnd := some 840,
    slotDuration := 30, isClosed := false }

/-! ## Theorems -/

/-- Slots emitted by the generation loop when lunch is active never meet
the half-open lunch interval. -/
theorem genSlotsLoop_lunch_free (checker : Nat → Nat → Bool) (now lunchStart lunchEnd d endT : Nat) :
    ∀ fuel cursor, ∀ t ∈ genSlotsLoop checker now true lunchStart lunchEnd d endT fuel cursor,
      ¬(t.startTime < lunchEnd ∧ lunchStart < t.endTime) := by
  intro fuel
  induction fuel with
  | zero => intro cursor t ht; simp [genSlotsLoop] at ht
  | succ n ih =>
    intro cursor t ht
    rw [genSlotsLoop] at ht
    by_cases hle : cursor + d ≤ endT
    · simp only [if_pos hle] at ht
      by_cases hov : isOverlapping cursor (cursor + d) lunchStart lunchEnd = true
      · simp only [Bool.true_and, if_pos hov] at ht
        exact ih (cursor + d) t ht
      · simp only [Bool.true_and, if_neg hov, List.mem_cons] at ht
        rcases ht with rfl | ht
        · simp only [isOverlapping, Bool.and_eq_true, decide_eq_true_eq] at hov
          intro hcon
          exact hov ⟨hcon.1, hcon.2⟩
        · exact ih (cursor + d) t ht
    · simp [if_neg hle] at ht

/-- C8: a closed schedule generates no slots, and when both lunch bounds
are present with lunch_start < lunch_end inside the working interval, no
generated slot overlaps the lunch break. -/
theorem generateSlots_closed_empty_and_lunch_free (checker : Nat → Nat → Bool)
    (now : Nat) (s : ScheduleInfo) :
    (s.isClosed = true → generateSlots checker now s = []) ∧
    (∀ lunchStart lunchEnd, s.lunchStart = some lunchStart → s.lunchEnd = some lunchEnd →
      lunchStart < lunchEnd → s.startTime ≤ lunchStart → lunchEnd ≤ s.endTime →
      ∀ t ∈ generateSlots checker now s,
        ¬(t.startTime < lunchEnd ∧ lunchStart < t.endTime)) := by
  constructor
  · intro h; simp [generateSlots, h]
  · intro lunchStart lunchEnd hls hle _ _ _ t ht
    unfold generateSlots at ht
    by_cases hc : s.isClosed = true
    · simp [hc] at ht
    · simp only [hc, if_false, Bool.false_eq_true, hls, hle, Option.isSome_some,
        Bool.and_self, Option.getD_some] at ht
      exact genSlotsLoop_lunch_free checker now lunchStart lunchEnd _ _ _ _ t ht

/-- C9: the 09:00 to 18:00 schedule with lunch 13:00 to 14:00 and 30-minute
slots yields exactly 16 slots, none of which meets the lunch window. -/
theorem demoSchedule_sixteen_slots :
    (generateSlots (fun _ _ => false) 0 demoSchedule).length = 16 ∧
    ∀ t ∈ generateSlots (fun _ _ => false) 0 demoSchedule,
      ¬(t.startTime < 840 ∧ 780 < t.endTime) := by
  constructor
  · rfl
  · decide

/-- C4: the two conflict-detection predicates implement the specified
asymmetric interval semantics: device range bookings overlap iff
endA >= startB and endB >= startA (boundary inclusive), hourly room
bookings overlap iff startA < endB and startB < endA (half-open). -/
theorem overlap_semantics_match_spec (a b : Booking) (c d : HourlyBooking) :
    (a.overlapsWith b = true ↔
      (b.date ≤ a.getEffectiveEndTime ∧ a.date ≤ b.getEffectiveEndTime)) ∧
    (c.overlapsWith d = true ↔
      (c.startTime < d.endTime ∧ d.startTime < c.endTime)) := by
  constructor
  · simp [Booking.overlapsWith, not_lt]
  · simp [HourlyBooking.overlapsWith]


/-- C1: with a fresh external id and an existing item, CreateExternalBooking
refuses with the not-available error and leaves the database unchanged when
approved occupancy for the item and date has reached the item quantity, and
otherwise inserts exactly one new row carrying version 1. -/
theorem createExternalBooking_capacity (db : JrDB) (itemId : Nat) (itemName : String)
    (date : Int) (extId clientName clientPhone : String) (item : Item)
    (hext : findByExternalId db.bookings extId = none)
    (hitem : findItem db.items itemId = some item) :
    (item.totalQuantity ≤ (countApproved db.bookings itemId date : Int) →
      createExternalBooking db itemId itemName date extId clientName clientPhone =
        (Except.error JrCreateError.notAvailable, db)) ∧
    ((countApproved db.bookings itemId date : Int) < item.totalQuantity →
      createExternalBooking db itemId itemName date extId clientName clientPhone =
        (Except.ok db.nextId,
          { db with
              nextId := db.nextId + 1,
              bookings := db.bookings ++
                [mkExternalBooking db.nextId itemId itemName date extId clientName
                  clientPhone] })) := by
  refine ⟨fun h => ?_, fun h => ?_⟩
  · simp [createExternalBooking, hext, hitem, if_pos h]
  · simp [createExternalBooking, hext, hitem, if_neg (not_le.mpr h)]

/-- Witness for the capacity theorem at the concrete database jrDB0:
item 2 has zero units, so creation is refused; item 1 has one unit, so the
row is inserted with version 1. -/
theorem createExternalBooking_capacity_witness :
    createExternalBooking jrDB0 2 itemZero.name 100 extA clientC phoneP =
      (Except.error JrCreateError.notAvailable, jrDB0) ∧
    createExternalBooking jrDB0 1 itemOne.name 100 extA clientC phoneP =
      (Except.ok 10, jrDB1) := by
  constructor
  · exact (createExternalBooking_capacity jrDB0 2 itemZero.name 100 extA clientC phoneP
      itemZero rfl rfl).1 (by decide)
  · exact (createExternalBooking_capacity jrDB0 1 itemOne.name 100 extA clientC phoneP
      itemOne rfl rfl).2 (by decide)

/-- The id column of the row INSERTed by CreateExternalBooking. -/
theorem mkExternalBooking_id (newId itemId : Nat) (itemName : String) (date : Int)
    (extId clientName clientPhone : String) :
    (mkExternalBooking newId itemId itemName date extId clientName clientPhone).id = newId :=
  rfl

/-- find? over an append when the first part holds no hit. -/
theorem find?_append_of_none {α : Type} {p : α → Bool} {l1 l2 : List α}
    (h : l1.find? p = none) : (l1 ++ l2).find? p = l2.find? p := by
  induction l1 with
  | nil => rfl
  | cons a t ih =>
    cases hpa : p a with
    | true =>
      exfalso
      rw [List.find?_cons_of_pos _ hpa] at h
      exact Option.noConfusion h
    | false =>
      have hneg : ¬(p a = true) := by simp [hpa]
      rw [List.find?_cons_of_neg _ hneg] at h
      rw [List.cons_append, List.find?_cons_of_neg _ hneg]
      exact ih h

/-- C2: when a creation call returns a booking id, the repeated call with
the same external id returns the same id and leaves the database unchanged;
and when the external id was fresh, the first call added exactly one
row. -/
theorem createExternalBooking_idempotent (db : JrDB) (itemId : Nat) (itemName : String)
    (date : Int) (extId clientName clientPhone : String) (id1 : Nat) (db1 : JrDB)
    (h : createExternalBooking db itemId itemName date extId clientName clientPhone =
      (Except.ok id1, db1)) :
    createExternalBooking db1 itemId itemName date extId clientName clientPhone =
      (Except.ok id1, db1) ∧
    (findByExternalId db.bookings extId = none →
      db1.bookings.length = db.bookings.length + 1) := by
  unfold createExternalBooking at h
  split at h
  · rename_i existing heq
    rw [Prod.mk.injEq] at h
    obtain ⟨hid, rfl⟩ := h
    obtain rfl := Except.ok.inj hid
    refine ⟨?_, fun hc => ?_⟩
    · unfold createExternalBooking
      rw [heq]
    · rw [hc] at heq
      exact Option.noConfusion heq
  · rename_i heq
    split at h
    · rw [Prod.mk.injEq] at h
      exact absurd h.1 (by simp)
    · rename_i item hitem
      split at h
      · rw [Prod.mk.injEq] at h
        exact absurd h.1 (by simp)
      · rename_i hcap
        rw [Prod.mk.injEq] at h
        obtain ⟨hid, rfl⟩ := h
        obtain rfl := Except.ok.inj hid
        have hfind1 : findByExternalId
            (db.bookings ++
              [mkExternalBooking db.nextId itemId itemName date extId clientName clientPhone])
            extId =
            some (mkExternalBooking db.nextId itemId itemName date extId clientName
              clientPhone) := by
          unfold findByExternalId at heq ⊢
          rw [find?_append_of_none heq]
          simp [List.find?, mkExternalBooking]
        refine ⟨?_, fun _ => ?_⟩
        · simp [createExternalBooking, hfind1, mkExternalBooking_id]
        · simp

/-- Witness for the idempotency theorem: replaying the creation against the
concrete post-insert database jrDB1 returns the same id 10 and changes
nothing, and the first call added exactly one row. -/
theorem createExternalBooking_idempotent_witness :
    createExternalBooking jrDB1 1 itemOne.name 100 extA clientC phoneP =
      (Except.ok 10, jrDB1) ∧
    jrDB1.bookings.length = jrDB0.bookings.length + 1 := by
  have h := createExternalBooking_idempotent jrDB0 1 itemOne.name 100 extA clientC phoneP
    10 jrDB1 rfl
  exact ⟨h.1, h.2 rfl⟩

/-- C3: the version-conditioned status update succeeds exactly when a row
with the given id carries the expected version; on success that row gets
the target status and its version grows by exactly one while every other
row is untouched; otherwise the caller receives the concurrency-conflict
error (and, the result being an error, the stored rows stay as they
were). -/
theorem updateBookingStatusWithVersion_spec (db : JrDB) (id expectedVersion : Nat)
    (status : String) :
    ((∃ db2, updateBookingStatusWithVersion db id expectedVersion status = Except.ok db2) ↔
      ∃ b ∈ db.bookings, b.id = id ∧ b.version = expectedVersion) ∧
    (∀ db2, updateBookingStatusWithVersion db id expectedVersion status = Except.ok db2 →
      db2.bookings.length = db.bookings.length ∧
      ∀ i (h1 : i < db.bookings.length) (h2 : i < db2.bookings.length),
        (((db.bookings.get ⟨i, h1⟩).id = id ∧
            (db.bookings.get ⟨i, h1⟩).version = expectedVersion) →
          db2.bookings.get ⟨i, h2⟩ =
            { db.bookings.get ⟨i, h1⟩ with
                status := status,
                version := (db.bookings.get ⟨i, h1⟩).version + 1 }) ∧
        ((¬((db.bookings.get ⟨i, h1⟩).id = id ∧
            (db.bookings.get ⟨i, h1⟩).version = expectedVersion)) →
          db2.bookings.get ⟨i, h2⟩ = db.bookings.get ⟨i, h1⟩)) ∧
    (updateBookingStatusWithVersion db id expectedVersion status =
        Except.error UpdateError.concurrencyConflict ↔
      ¬∃ b ∈ db.bookings, b.id = id ∧ b.version = expectedVersion) := by
  have hkey : ((db.bookings.filter
      (fun b => b.id == id && b.version == expectedVersion)).length == 0) = true ↔
      ¬∃ b ∈ db.bookings, b.id = id ∧ b.version = expectedVersion := by
    simp [List.length_eq_zero, List.filter_eq_nil_iff]
  by_cases hcond : ((db.bookings.filter
      (fun b => b.id == id && b.version == expectedVersion)).length == 0) = true
  · have herr : updateBookingStatusWithVersion db id expectedVersion status =
        Except.error UpdateError.concurrencyConflict := by
      rw [updateBookingStatusWithVersion, if_pos hcond]
    refine ⟨⟨?_, ?_⟩, ?_, ?_⟩
    · rintro ⟨db2, hok⟩
      rw [herr] at hok
      exact Except.noConfusion hok
    · intro hex
      exact absurd hex (hkey.mp hcond)
    · intro db2 hok
      rw [herr] at hok
      exact Except.noConfusion hok
    · exact ⟨fun _ => hkey.mp hcond, fun _ => herr⟩
  · have hok : updateBookingStatusWithVersion db id expectedVersion status =
        Except.ok { db with bookings := db.bookings.map (fun b =>
          if b.id == id && b.version == expectedVersion then
            { b with status := status, version := b.version + 1 }
          else b) } := by
      rw [updateBookingStatusWithVersion, if_neg hcond]
    have hex : ∃ b ∈ db.bookings, b.id = id ∧ b.version = expectedVersion := by
      by_contra hno
      exact hcond (hkey.mpr hno)
    refine ⟨⟨fun _ => hex, fun _ => ⟨_, hok⟩⟩, ?_, ?_⟩
    · intro db2 h2
      rw [hok] at h2
      obtain rfl := Except.ok.inj h2
      refine ⟨by simp, ?_⟩
      intro i h1 h2i
      constructor
      · intro hmatch
        simp only [List.get_eq_getElem] at hmatch ⊢
        simp only [List.getElem_map]
        rw [if_pos (by simp [hmatch.1, hmatch.2])]
      · intro hmatch
        simp only [List.get_eq_getElem] at hmatch ⊢
        simp only [List.getElem_map]
        rw [if_neg (by simpa using hmatch)]
    · constructor
      · intro herr2
        rw [hok] at herr2
        exact Except.noConfusion herr2
      · intro hno
        exact absurd hex hno

/-- Witness: on the concrete database holding one approved booking with id 3
and version 1, the versioned update to confirmed succeeds. -/
theorem updateBookingStatusWithVersion_spec_witness :
    ∃ db2, updateBookingStatusWithVersion jrDBApproved 3 1 StatusConfirmed = Except.ok db2 := by
  refine ((updateBookingStatusWithVersion_spec jrDBApproved 3 1 StatusConfirmed).1).mpr ?_
  exact ⟨approvedJrBooking, by simp [jrDBApproved], rfl, rfl⟩

/-- Witness for the C8 theorem: the closed variant of the demo schedule
yields no slots, and on the demo schedule itself no slot meets the
13:00 to 14:00 lunch window. -/
theorem generateSlots_closed_empty_and_lunch_free_witness :
    generateSlots (fun _ _ => false) 0 { demoSchedule with isClosed := true } = [] ∧
    ∀ t ∈ generateSlots (fun _ _ => false) 0 demoSchedule,
      ¬(t.startTime < 840 ∧ 780 < t.endTime) := by
  constructor
  · exact (generateSlots_closed_empty_and_lunch_free (fun _ _ => false) 0
      { demoSchedule with isClosed := true }).1 rfl
  · exact (generateSlots_closed_empty_and_lunch_free (fun _ _ => false) 0 demoSchedule).2
      780 840 rfl rfl (by decide) (by decide) (by decide)

/-- C5 counterexample: RejectBooking applied to a booking in the terminal
status completed succeeds and stores status rejected — the terminal
booking is neither left unchanged nor refused. -/
theorem rejectBooking_completed_counterexample :
    rejectBooking [completedCrmBooking] 7 reasonX =
      Except.ok
        [{ completedCrmBooking with status := StatusRejected, managerComment := reasonX }] ∧
    completedCrmBooking.status = StatusCompleted := by
  exact ⟨rfl, rfl⟩

/-- C5 amended: approval and revision requests refuse every terminal
booking and leave the store untouched; rejection refuses bookings already
rejected or canceled yet moves a completed booking to rejected;
cancellation by external id never modifies an already canceled row but
does cancel a matching completed row. -/
theorem terminal_status_guards (bs : List HourlyBooking) (id : Nat) (b : HourlyBooking)
    (c reason : String)
    (hfind : getBooking bs id = some b)
    (hterm : b.status = StatusRejected ∨ b.status = StatusCanceled ∨
      b.status = StatusCompleted) :
    (∃ e, approveBooking bs id c = Except.error e) ∧
    (∃ e, requestRevision bs id c = Except.error e) ∧
    ((b.status = StatusRejected ∨ b.status = StatusCanceled) →
      ∃ e, rejectBooking bs id reason = Except.error e) ∧
    (b.status = StatusCompleted →
      rejectBooking bs id reason =
        Except.ok (updateBookingStatus bs id StatusRejected reason)) ∧
    (∀ (db : JrDB) (extId : String) (db2 : JrDB),
      cancelExternalBooking db extId = Except.ok db2 →
      ∀ x ∈ db.bookings,
        (x.status = StatusCanceled → x ∈ db2.bookings) ∧
        (x.externalBookingId = some extId → x.status = StatusCompleted →
          { x with status := StatusCanceled } ∈ db2.bookings)) := by
  have hnp : (b.status == StatusPending) = false := by
    rcases hterm with h | h | h <;> rw [h] <;> decide
  refine ⟨?_, ?_, ?_, ?_, ?_⟩
  · exact ⟨CrmError.invalidStatus b.status, by simp [approveBooking, hfind, hnp]⟩
  · exact ⟨CrmError.invalidStatus b.status, by simp [requestRevision, hfind, hnp]⟩
  · intro hrc
    have hg : (b.status == StatusRejected || b.status == StatusCanceled) = true := by
      rcases hrc with h | h <;> rw [h] <;> decide
    exact ⟨CrmError.alreadyFinalized, by simp [rejectBooking, hfind, hg]⟩
  · intro hco
    have hg : (b.status == StatusRejected || b.status == StatusCanceled) = false := by
      rw [hco]; decide
    simp [rejectBooking, hfind, hg]
  · intro db extId db2 hok x hx
    unfold cancelExternalBooking at hok
    by_cases h0 : ((db.bookings.filter (fun r => cancelTargets r extId)).length == 0) = true
    · rw [if_pos h0] at hok
      exact Except.noConfusion hok
    · rw [if_neg h0] at hok
      obtain rfl := Except.ok.inj hok
      constructor
      · intro hxc
        have hid : (if cancelTargets x extId then { x with status := StatusCanceled } else x)
            = x := by
          simp [cancelTargets, hxc]
        exact hid ▸ List.mem_map_of_mem _ hx
      · intro hxe hxc
        have hguard : cancelTargets x extId = true := by
          unfold cancelTargets
          rw [hxe, hxc]
          simp
          decide
        have hid : (if cancelTargets x extId then { x with status := StatusCanceled } else x)
            = { x with status := StatusCanceled } := by
          rw [if_pos hguard]
        exact hid ▸ List.mem_map_of_mem _ hx

/-- Witness for the amended terminal-status theorem on the concrete store
holding one completed booking: approval is refused while rejection goes
through. -/
theorem terminal_status_guards_witness :
    (∃ e, approveBooking [completedCrmBooking] 7 commentX = Except.error e) ∧
    rejectBooking [completedCrmBooking] 7 reasonX =
      Except.ok (updateBookingStatus [completedCrmBooking] 7 StatusRejected reasonX) := by
  have h := terminal_status_guards [completedCrmBooking] 7 completedCrmBooking commentX
    reasonX rfl (Or.inr (Or.inr rfl))
  exact ⟨h.1, h.2.2.2.1 rfl⟩

/-- C6 counterexample: cancellation by external id moves the approved
booking to canceled yet leaves its version counter at 1 instead of
incrementing it to 2. -/
theorem cancelExternalBooking_version_counterexample :
    cancelExternalBooking jrDBApproved extA = Except.ok jrDBCanceled ∧
    approvedJrBooking.version = 1 ∧
    jrDBCanceled.bookings.map (fun b => b.version) = [1] ∧
    jrDBCanceled.bookings.map (fun b => b.status) = [StatusCanceled] := by
  exact ⟨rfl, rfl, rfl, rfl⟩

/-- C6 amended: version-conditioned status updates increment the version by
exactly one, but cancellation by external id changes statuses while
leaving the id and version of every stored booking unchanged. -/
theorem cancelExternalBooking_preserves_versions (db : JrDB) (extId : String) (db2 : JrDB)
    (h : cancelExternalBooking db extId = Except.ok db2) :
    db2.bookings.map (fun b => b.version) = db.bookings.map (fun b => b.version) ∧
    db2.bookings.map (fun b => b.id) = db.bookings.map (fun b => b.id) := by
  unfold cancelExternalBooking at h
  by_cases h0 : ((db.bookings.filter (fun r => cancelTargets r extId)).length == 0) = true
  · rw [if_pos h0] at h
    exact Except.noConfusion h
  · rw [if_neg h0] at h
    obtain rfl := Except.ok.inj h
    constructor <;>
    · simp only [List.map_map]
      apply List.map_congr_left
      intro x _
      by_cases hc : cancelTargets x extId = true <;> simp [hc]

/-- Witness for the version-preservation theorem at the concrete database
holding one approved external booking. -/
theorem cancelExternalBooking_preserves_versions_witness :
    jrDBCanceled.bookings.map (fun b => b.version) =
      jrDBApproved.bookings.map (fun b => b.version) :=
  (cancelExternalBooking_preserves_versions jrDBApproved extA jrDBCanceled rfl).1

/-- C7 counterexample: applying the holiday calendar for day 100 to cabinet
1, which already carries an explicit open special-hours override for that
date, replaces the explicit override with the closed holiday override. -/
theorem applyHolidays_replace_counterexample :
    applyHolidays [specialHoursOverride] [1] [(100, holidayNY)] = [closedNYRow] ∧
    specialHoursOverride.isClosed = false ∧ closedNYRow.isClosed = true := by
  exact ⟨rfl, rfl, rfl⟩

/-- Rows outside the upserted key survive the upsert map unchanged. -/
theorem filter_other_keys_upsert (tbl : List OverrideRow) (cid : Nat) (d : Int)
    (o : OverrideRow) (ho : overrideKeyMatches o cid d = true) :
    ((tbl.map (fun r => if overrideKeyMatches r cid d then o else r)).filter
        (fun r => !(overrideKeyMatches r cid d))) =
      tbl.filter (fun r => !(overrideKeyMatches r cid d)) := by
  induction tbl with
  | nil => rfl
  | cons a t ih =>
    by_cases ha : overrideKeyMatches a cid d = true
    · simp [ha, ho, ih]
    · simp [ha, ih]

/-- C7 amended: applying the holiday calendar for one cabinet and date
upserts a closed override: rows under every other (cabinet, date) key are
exactly preserved, every row under the holiday key in the result is the
closed holiday row — so a pre-existing explicit override for that date is
replaced, not preserved — and such a closed row exists afterwards. -/
theorem applyHolidays_upsert_semantics (tbl : List OverrideRow) (cid : Nat) (d : Int)
    (nm : String) :
    ((applyHolidays tbl [cid] [(d, nm)]).filter (fun r => !(overrideKeyMatches r cid d))) =
      tbl.filter (fun r => !(overrideKeyMatches r cid d)) ∧
    (∀ r ∈ applyHolidays tbl [cid] [(d, nm)], overrideKeyMatches r cid d = true →
      r = { cabinetId := cid, date := d, isClosed := true, startTime := "", endTime := "",
            lunchStart := "", lunchEnd := "", reason := nm }) ∧
    (∃ r ∈ applyHolidays tbl [cid] [(d, nm)], overrideKeyMatches r cid d = true) := by
  have happ : applyHolidays tbl [cid] [(d, nm)] = setDayOff tbl cid d nm := rfl
  rw [happ]
  unfold setDayOff createScheduleOverride
  have hkeyo : overrideKeyMatches
      { cabinetId := cid, date := d, isClosed := true, startTime := "", endTime := "",
        lunchStart := "", lunchEnd := "", reason := nm } cid d = true := by
    simp [overrideKeyMatches]
  by_cases hany : (tbl.any (fun r => overrideKeyMatches r cid d)) = true
  · rw [if_pos hany]
    obtain ⟨w, hw, hwkey⟩ := List.any_eq_true.mp hany
    refine ⟨filter_other_keys_upsert tbl cid d _ hkeyo, ?_, ?_⟩
    · intro r hr hrkey
      obtain ⟨x, hxmem, hxeq⟩ := List.mem_map.mp hr
      by_cases hx : overrideKeyMatches x cid d = true
      · rw [if_pos hx] at hxeq
        exact hxeq.symm
      · rw [if_neg hx] at hxeq
        exact absurd (hxeq ▸ hrkey) hx
    · refine ⟨_, List.mem_map_of_mem _ hw, ?_⟩
      rw [if_pos hwkey]
      exact hkeyo
  · rw [if_neg hany]
    have hnone : ∀ r ∈ tbl, ¬(overrideKeyMatches r cid d = true) := by
      intro r hr
      exact List.any_eq_false.mp (Bool.not_eq_true _ ▸ hany) r hr
    refine ⟨?_, ?_, ?_⟩
    · rw [List.filter_append]
      have : List.filter (fun r => !(overrideKeyMatches r cid d))
          [({ cabinetId := cid, date := d, isClosed := true, startTime := "", endTime := "",
              lunchStart := "", lunchEnd := "", reason := nm } : OverrideRow)] = [] := by
        simp [hkeyo]
      rw [this, List.append_nil]
    · intro r hr hrkey
      rcases List.mem_append.mp hr with hmem | hmem
      · exact absurd hrkey (hnone r hmem)
      · exact List.mem_singleton.mp hmem
    · exact ⟨_, List.mem_append_right _ (List.mem_singleton_self _), hkeyo⟩

/-- Witness for the upsert theorem: in the concrete table whose only row is
the explicit open override, the surviving row under the holiday key is the
closed holiday row. -/
theorem applyHolidays_upsert_semantics_witness :
    closedNYRow =
      { cabinetId := 1, date := 100, isClosed := true, startTime := "", endTime := "",
        lunchStart := "", lunchEnd := "", reason := holidayNY } := by
  exact (applyHolidays_upsert_semantics [specialHoursOverride] 1 100 holidayNY).2.1
    closedNYRow (by decide) (by decide)

/-- C10 counterexample: the external-API creation path is not a manager
action (the inserted row carries no telegram user), yet the row it writes
has status approved, not pending. -/
theorem externalBooking_not_pending_counterexample :
    (createExternalBooking jrDB0 1 itemOne.name 100 extA clientC phoneP).2.bookings.map
      (fun b => b.status) = [StatusApproved] ∧
    (createExternalBooking jrDB0 1 itemOne.name 100 extA clientC phoneP).2.bookings.map
      (fun b => b.userId) = [0] ∧
    StatusApproved ≠ StatusPending := by
  refine ⟨rfl, rfl, ?_⟩
  decide

/-- C10 amended: bookings created through the bot dialog are inserted as
pending unless entered manually by a manager, in which case they are
approved; bookings created through the external cross-system API are
always inserted as approved, so only the bot path honours the pending
default. -/
theorem creation_status_policy (userId cabinetId : Nat)
    (itemName clientName clientPhone : String) (startTime endTime : Int) :
    (finalizeBookingRecord false userId cabinetId itemName clientName clientPhone
      startTime endTime).status = StatusPending ∧
    (finalizeBookingRecord true userId cabinetId itemName clientName clientPhone
      startTime endTime).status = StatusApproved ∧
    (∀ (db : JrDB) (itemId : Nat) (inm : String) (date : Int) (extId cn cp : String),
      ∀ b ∈ (createExternalBooking db itemId inm date extId cn cp).2.bookings,
        b ∈ db.bookings ∨ b.status = StatusApproved) := by
  refine ⟨rfl, rfl, ?_⟩
  intro db itemId inm date extId cn cp b hb
  unfold createExternalBooking at hb
  cases hfind : findByExternalId db.bookings extId with
  | some existing =>
    simp only [hfind] at hb
    exact Or.inl hb
  | none =>
    simp only [hfind] at hb
    cases hitem : findItem db.items itemId with
    | none =>
      simp only [hitem] at hb
      exact Or.inl hb
    | some item =>
      simp only [hitem] at hb
      by_cases hcap : item.totalQuantity ≤ (countApproved db.bookings itemId date : Int)
      · rw [if_pos hcap] at hb
        exact Or.inl hb
      · rw [if_neg hcap] at hb
        have hb2 : b ∈ db.bookings ++
            [mkExternalBooking db.nextId itemId inm date extId cn cp] := hb
        rcases List.mem_append.mp hb2 with hmem | hmem
        · exact Or.inl hmem
        · obtain rfl := List.mem_singleton.mp hmem
          exact Or.inr rfl

/-- Witness for the creation-status theorem: the non-manual bot record is
pending, and the concrete row inserted by the external API is approved. -/
theorem creation_status_policy_witness :
    (finalizeBookingRecord false 1 1 itemOne.name clientC phoneP 600 660).status =
      StatusPending ∧
    (mkExternalBooking 10 1 itemOne.name 100 extA clientC phoneP ∈ jrDB0.bookings ∨
      (mkExternalBooking 10 1 itemOne.name 100 extA clientC phoneP).status =
        StatusApproved) := by
  have h := creation_status_policy 1 1 itemOne.name clientC phoneP 600 660
  refine ⟨h.1, ?_⟩
  exact h.2.2 jrDB0 1 itemOne.name 100 extA clientC phoneP
    (mkExternalBooking 10 1 itemOne.name 100 extA clientC phoneP) (by decide)
